import Mathlib

/-!
Shallow embedding of `src/video_echo/py_server/server.py`, a
WebTransport-over-HTTP/3 echo server built on aioquic.

Modelling conventions:
* Python byte strings are `List Nat`, one `Nat` per byte.
* The mutable side effects performed on the H3 connection and the QUIC
  transport (sending headers, sending stream data, sending datagrams,
  creating outbound WebTransport streams, flushing) are recorded as an
  explicit, ordered trace of `Output` actions.
* The H3 connection's outbound-stream allocator (what
  `create_webtransport_stream` draws fresh stream ids from) is threaded
  through explicitly as `HttpState`; server-initiated unidirectional
  QUIC stream ids advance by 4.
* `dict` objects keyed by byte strings are association lists; building the
  headers dict with `headers[header] = value` in a loop means the last
  binding of a key wins, which `dictGet` reproduces.
* `defaultdict(int)` is an association list `List (Nat × Nat)`;
  `k not in d` is `(alookup d k).isNone` (membership does not invoke the
  default factory), and `del d[k]` wrapped in `try ... except KeyError: pass`
  is `aerase` (total, removes the entry when present).
* Python exceptions that escape the server code (a failed `assert`, an
  `AttributeError`) are modelled with `Except String`.
* HTTP/3 frame decoding (`H3Connection.handle_event`) is an external
  collaborator of the server; where `quic_event_received` iterates over the
  events it yields, that yielded list is taken as a parameter.
-/

/-- Python byte string, one `Nat` per byte. -/
abbrev ByteStr := List Nat

/-- Byte-string literal from an ASCII string (models a `b"..."` literal). -/
def bytes (s : String) : ByteStr := s.data.map Char.toNat

/-- Lookup in the dict built by iterating `headers[header] = value` over the
raw header list in order: the last binding of a key wins, as in
`dict.get(key)`. -/
def dictGet : List (ByteStr × ByteStr) → ByteStr → Option ByteStr
  | [], _ => none
  | (k, v) :: rest, key =>
    match dictGet rest key with
    | some v2 => some v2
    | none => if k = key then some v else none

/-- Association-list lookup, `d[k]` presence side of a Python dict. -/
def alookup : List (Nat × Nat) → Nat → Option Nat
  | [], _ => none
  | (k, v) :: rest, key => if k = key then some v else alookup rest key

/-- Association-list insertion/overwrite, `d[k] = v` on a Python dict. -/
def ainsert : List (Nat × Nat) → Nat → Nat → List (Nat × Nat)
  | [], key, val => [(key, val)]
  | (k, v) :: rest, key, val =>
    if k = key then (key, val) :: rest else (k, v) :: ainsert rest key val

/-- Association-list deletion; `del d[k]` guarded by
`try ... except KeyError: pass`, hence total (no-op when absent). -/
def aerase : List (Nat × Nat) → Nat → List (Nat × Nat)
  | [], _ => []
  | (k, v) :: rest, key => if k = key then rest else (k, v) :: aerase rest key

/-- The aioquic HTTP/3 events the server inspects
(`HeadersReceived`, `WebTransportStreamDataReceived`, `DatagramReceived`,
`DataReceived`). -/
inductive H3Event where
  | headersReceived (stream_id : Nat) (headers : List (ByteStr × ByteStr))
  | webTransportStreamDataReceived (stream_id : Nat) (session_id : Nat)
      (data : ByteStr) (stream_ended : Bool)
  | datagramReceived (flow_id : Nat) (data : ByteStr)
  | dataReceived (stream_id : Nat) (data : ByteStr) (stream_ended : Bool)
  deriving DecidableEq, Repr

/-- The QUIC-level events `quic_event_received` dispatches on;
`otherQuicEvent` stands for every further event kind, which the method
ignores apart from feeding it to the H3 layer. -/
inductive QuicEvent where
  | protocolNegotiated
  | streamReset (stream_id : Nat)
  | otherQuicEvent
  deriving DecidableEq, Repr

/-- Effects performed on the H3 connection / QUIC transport, in program
order.  `printed` records the `print(...)` call in the session-close path. -/
inductive Output where
  | send_headers (stream_id : Nat) (headers : List (ByteStr × ByteStr))
      (end_stream : Bool)
  | create_webtransport_stream (session_id : Nat) (is_unidirectional : Bool)
  | send_stream_data (stream_id : Nat) (data : ByteStr) (end_stream : Bool)
  | send_datagram (flow_id : Nat) (data : ByteStr)
  | transmit
  | printed (line : String)
  deriving DecidableEq, Repr

/-- Outbound-stream allocator of the H3 connection:
`create_webtransport_stream(..., is_unidirectional=True)` returns the next
server-initiated unidirectional stream id and advances it by 4. -/
structure HttpState where
  nextStreamId : Nat
  deriving DecidableEq, Repr

/-- State of class `AudioEchoStream`: `_session_id` and the
`_echo_stream_id` mapping (a `defaultdict(int)` in the source); the
`_http` reference is threaded separately as `HttpState`. -/
structure AudioEchoStream where
  session_id : Nat
  echo_stream_id : List (Nat × Nat)
  deriving DecidableEq, Repr

/-- Method `AudioEchoStream.stream_closed`: `del self._echo_stream_id[stream_id]`
inside `try ... except KeyError: pass`, so it is total. -/
def AudioEchoStream.stream_closed (st : AudioEchoStream) (stream_id : Nat) :
    AudioEchoStream :=
  { st with echo_stream_id := aerase st.echo_stream_id stream_id }

/-- Method `AudioEchoStream.session_closed`: the body just returns. -/
def AudioEchoStream.session_closed (st : AudioEchoStream) : AudioEchoStream := st

/-- Method `AudioEchoStream.h3_event_received`.  Only
`WebTransportStreamDataReceived` events are acted on: on a previously-unseen
inbound stream id a fresh outbound unidirectional stream is created and
recorded, the chunk is forwarded with the inbound `stream_ended` flag, and on
end-of-stream the mapping entry is removed via `stream_closed`.  (The
`defaultdict` read `self._echo_stream_id[event.stream_id]` happens only after
presence is ensured, so its default `0` branch is unreachable.) -/
def AudioEchoStream.h3_event_received (http : HttpState) (st : AudioEchoStream)
    (event : H3Event) : HttpState × AudioEchoStream × List Output :=
  match event with
  | H3Event.webTransportStreamDataReceived stream_id _ data stream_ended =>
    let fresh := (alookup st.echo_stream_id stream_id).isNone
    let http2 := if fresh then { nextStreamId := http.nextStreamId + 4 } else http
    let st2 :=
      if fresh then
        { st with echo_stream_id :=
            ainsert st.echo_stream_id stream_id http.nextStreamId }
      else st
    let createOut :=
      if fresh then [Output.create_webtransport_stream st.session_id true] else []
    let out := Output.send_stream_data
        ((alookup st2.echo_stream_id stream_id).getD 0) data stream_ended
    let st3 := if stream_ended then AudioEchoStream.stream_closed st2 stream_id else st2
    (http2, st3, createOut ++ [out])
  | _ => (http, st, [])

/-- State of class `VideoEchoStream` (textually identical to
`AudioEchoStream` in the source). -/
structure VideoEchoStream where
  session_id : Nat
  echo_stream_id : List (Nat × Nat)
  deriving DecidableEq, Repr

/-- Method `VideoEchoStream.stream_closed`. -/
def VideoEchoStream.stream_closed (st : VideoEchoStream) (stream_id : Nat) :
    VideoEchoStream :=
  { st with echo_stream_id := aerase st.echo_stream_id stream_id }

/-- Method `VideoEchoStream.session_closed`: the body just returns. -/
def VideoEchoStream.session_closed (st : VideoEchoStream) : VideoEchoStream := st

/-- Method `VideoEchoStream.h3_event_received`, identical to the audio
variant. -/
def VideoEchoStream.h3_event_received (http : HttpState) (st : VideoEchoStream)
    (event : H3Event) : HttpState × VideoEchoStream × List Output :=
  match event with
  | H3Event.webTransportStreamDataReceived stream_id _ data stream_ended =>
    let fresh := (alookup st.echo_stream_id stream_id).isNone
    let http2 := if fresh then { nextStreamId := http.nextStreamId + 4 } else http
    let st2 :=
      if fresh then
        { st with echo_stream_id :=
            ainsert st.echo_stream_id stream_id http.nextStreamId }
      else st
    let createOut :=
      if fresh then [Output.create_webtransport_stream st.session_id true] else []
    let out := Output.send_stream_data
        ((alookup st2.echo_stream_id stream_id).getD 0) data stream_ended
    let st3 := if stream_ended then VideoEchoStream.stream_closed st2 stream_id else st2
    (http2, st3, createOut ++ [out])
  | _ => (http, st, [])

/-- State of class `AudioEchoDatagram`: only `_session_id` (the class keeps
no other data; `_http` and `_protocol` are connection references). -/
structure AudioEchoDatagram where
  session_id : Nat
  deriving DecidableEq, Repr

/-- Method `AudioEchoDatagram.h3_event_received`: on a `DatagramReceived`
event, `send_datagram(self._session_id, event.data)` then
`self._protocol.transmit()`; every other event is ignored. -/
def AudioEchoDatagram.h3_event_received (st : AudioEchoDatagram) (event : H3Event) :
    AudioEchoDatagram × List Output :=
  match event with
  | H3Event.datagramReceived _ data =>
    (st, [Output.send_datagram st.session_id data, Output.transmit])
  | _ => (st, [])

/-- Method `AudioEchoDatagram.stream_closed`: the body runs
`del self._echo_stream_id[stream_id]`, but `_echo_stream_id` is never
initialized on this class, so the attribute access raises `AttributeError`,
which the surrounding `except KeyError` does not catch. -/
def AudioEchoDatagram.stream_closed (_st : AudioEchoDatagram) (_stream_id : Nat) :
    Except String AudioEchoDatagram :=
  Except.error "AttributeError: AudioEchoDatagram object has no attribute _echo_stream_id"

/-- Method `AudioEchoDatagram.session_closed`: the body just returns. -/
def AudioEchoDatagram.session_closed (st : AudioEchoDatagram) : AudioEchoDatagram := st

/-- State of class `VideoEchoDatagram` (textually identical to
`AudioEchoDatagram` in the source). -/
structure VideoEchoDatagram where
  session_id : Nat
  deriving DecidableEq, Repr

/-- Method `VideoEchoDatagram.h3_event_received`, identical to the audio
variant. -/
def VideoEchoDatagram.h3_event_received (st : VideoEchoDatagram) (event : H3Event) :
    VideoEchoDatagram × List Output :=
  match event with
  | H3Event.datagramReceived _ data =>
    (st, [Output.send_datagram st.session_id data, Output.transmit])
  | _ => (st, [])

/-- Method `VideoEchoDatagram.stream_closed`: same uninitialized-attribute
dereference as on `AudioEchoDatagram`. -/
def VideoEchoDatagram.stream_closed (_st : VideoEchoDatagram) (_stream_id : Nat) :
    Except String VideoEchoDatagram :=
  Except.error "AttributeError: VideoEchoDatagram object has no attribute _echo_stream_id"

/-- Method `VideoEchoDatagram.session_closed`: the body just returns. -/
def VideoEchoDatagram.session_closed (st : VideoEchoDatagram) : VideoEchoDatagram := st

/-- The value of `WebTransportProtocol._handler`: one of the four handler
classes (`None` is represented by `Option Handler` at the protocol level). -/
inductive Handler where
  | audioEchoStream (st : AudioEchoStream)
  | videoEchoStream (st : VideoEchoStream)
  | audioEchoDatagram (st : AudioEchoDatagram)
  | videoEchoDatagram (st : VideoEchoDatagram)
  deriving DecidableEq, Repr

/-- Dynamic dispatch of `self._handler.h3_event_received(event)`. -/
def Handler.h3_event_received (http : HttpState) : Handler → H3Event →
    HttpState × Handler × List Output
  | Handler.audioEchoStream st, e =>
    let r := AudioEchoStream.h3_event_received http st e
    (r.1, Handler.audioEchoStream r.2.1, r.2.2)
  | Handler.videoEchoStream st, e =>
    let r := VideoEchoStream.h3_event_received http st e
    (r.1, Handler.videoEchoStream r.2.1, r.2.2)
  | Handler.audioEchoDatagram st, e =>
    let r := AudioEchoDatagram.h3_event_received st e
    (http, Handler.audioEchoDatagram r.1, r.2)
  | Handler.videoEchoDatagram st, e =>
    let r := VideoEchoDatagram.h3_event_received st e
    (http, Handler.videoEchoDatagram r.1, r.2)

/-- Dynamic dispatch of `self._handler.stream_closed(stream_id)`; on the
datagram variants this raises `AttributeError`. -/
def Handler.stream_closed : Handler → Nat → Except String Handler
  | Handler.audioEchoStream st, stream_id =>
    Except.ok (Handler.audioEchoStream (AudioEchoStream.stream_closed st stream_id))
  | Handler.videoEchoStream st, stream_id =>
    Except.ok (Handler.videoEchoStream (VideoEchoStream.stream_closed st stream_id))
  | Handler.audioEchoDatagram st, stream_id =>
    match AudioEchoDatagram.stream_closed st stream_id with
    | Except.ok st2 => Except.ok (Handler.audioEchoDatagram st2)
    | Except.error e => Except.error e
  | Handler.videoEchoDatagram st, stream_id =>
    match VideoEchoDatagram.stream_closed st stream_id with
    | Except.ok st2 => Except.ok (Handler.videoEchoDatagram st2)
    | Except.error e => Except.error e

/-- Dynamic dispatch of `self._handler.session_closed()` (a no-op on every
handler class). -/
def Handler.session_closed : Handler → Handler
  | Handler.audioEchoStream st => Handler.audioEchoStream (AudioEchoStream.session_closed st)
  | Handler.videoEchoStream st => Handler.videoEchoStream (VideoEchoStream.session_closed st)
  | Handler.audioEchoDatagram st => Handler.audioEchoDatagram (AudioEchoDatagram.session_closed st)
  | Handler.videoEchoDatagram st => Handler.videoEchoDatagram (VideoEchoDatagram.session_closed st)

/-- State of one `WebTransportProtocol` instance: the H3 connection
(`httpUp` records whether `self._http` is not `None`; `http` is its
outbound-stream allocator) and `self._handler`. -/
structure ProtocolState where
  http : HttpState
  httpUp : Bool
  handler : Option Handler
  deriving DecidableEq, Repr

/-- The header list built by `_send_response`: `[:status, <code>]` followed
by the fixed `sec-webtransport-http3-draft: draft02` marker. -/
def response_headers (status_code : Nat) : List (ByteStr × ByteStr) :=
  [(bytes ":status", bytes (toString status_code)),
   (bytes "sec-webtransport-http3-draft", bytes "draft02")]

/-- Method `WebTransportProtocol._send_response` as the `send_headers`
action it performs (the Python default for `end_stream` is `False`; call
sites pass it explicitly here). -/
def send_response (stream_id : Nat) (status_code : Nat) (end_stream : Bool) :
    Output :=
  Output.send_headers stream_id (response_headers status_code) end_stream

/-- Method `WebTransportProtocol._handshake_webtransport`: requires
`:authority` and `:path` (else 400, stream ended); routes the four exact
paths, each guarded by `assert(self._handler is None)` (a failed assert is
an `Except.error`); any other path gets 404 with the stream ended. -/
def handshakeWebtransport (st : ProtocolState) (stream_id : Nat)
    (request_headers : List (ByteStr × ByteStr)) :
    Except String (ProtocolState × List Output) :=
  let authority := dictGet request_headers (bytes ":authority")
  let path := dictGet request_headers (bytes ":path")
  if authority = none ∨ path = none then
    Except.ok (st, [send_response stream_id 400 true])
  else if path = some (bytes "/audio/echo/stream") then
    if st.handler.isSome then Except.error "AssertionError: self._handler is None"
    else
      Except.ok ({ st with handler := some (Handler.audioEchoStream
                    { session_id := stream_id, echo_stream_id := [] }) },
                 [send_response stream_id 200 false])
  else if path = some (bytes "/video/echo/stream") then
    if st.handler.isSome then Except.error "AssertionError: self._handler is None"
    else
      Except.ok ({ st with handler := some (Handler.videoEchoStream
                    { session_id := stream_id, echo_stream_id := [] }) },
                 [send_response stream_id 200 false])
  else if path = some (bytes "/audio/echo/datagram") then
    if st.handler.isSome then Except.error "AssertionError: self._handler is None"
    else
      Except.ok ({ st with handler := some (Handler.audioEchoDatagram
                    { session_id := stream_id }) },
                 [send_response stream_id 200 false])
  else if path = some (bytes "/video/echo/datagram") then
    if st.handler.isSome then Except.error "AssertionError: self._handler is None"
    else
      Except.ok ({ st with handler := some (Handler.videoEchoDatagram
                    { session_id := stream_id }) },
                 [send_response stream_id 200 false])
  else
    Except.ok (st, [send_response stream_id 404 true])

/-- First half of `WebTransportProtocol._h3_event_received`: the
`HeadersReceived` / `DataReceived` dispatch that precedes the final
forwarding to `self._handler`.  The session-close check requires
`len(event.data) >= 3 and event.stream_ended and event.data[0] == 0x68 and
event.data[1] == 0x43`; when it fires, `self._handler.session_closed()` is
called unconditionally, which raises `AttributeError` when the handler is
still `None`. -/
def h3Step1 (st : ProtocolState) (event : H3Event) :
    Except String (ProtocolState × List Output) :=
  match event with
  | H3Event.headersReceived stream_id hs =>
    if dictGet hs (bytes ":method") = some (bytes "CONNECT") ∧
       dictGet hs (bytes ":protocol") = some (bytes "webtransport") then
      handshakeWebtransport st stream_id hs
    else
      Except.ok (st, [send_response stream_id 400 true])
  | H3Event.dataReceived _ data stream_ended =>
    if 3 ≤ data.length ∧ stream_ended = true ∧
       data.get? 0 = some 0x68 ∧ data.get? 1 = some 0x43 then
      match st.handler with
      | none =>
        Except.error "AttributeError: NoneType object has no attribute session_closed"
      | some h =>
        Except.ok ({ st with handler := some (Handler.session_closed h) },
                   [Output.printed "session closed!!!!!!"])
    else
      Except.ok (st, [])
  | _ => Except.ok (st, [])

/-- Tail of `WebTransportProtocol._h3_event_received`:
`if self._handler: self._handler.h3_event_received(event)`. -/
def forwardToHandler (st : ProtocolState) (event : H3Event) (out1 : List Output) :
    Except String (ProtocolState × List Output) :=
  match st.handler with
  | some h =>
    let r := Handler.h3_event_received st.http h event
    Except.ok ({ st with http := r.1, handler := some r.2.1 }, out1 ++ r.2.2)
  | none => Except.ok (st, out1)

/-- Method `WebTransportProtocol._h3_event_received`. -/
def h3EventReceived (st : ProtocolState) (event : H3Event) :
    Except String (ProtocolState × List Output) :=
  match h3Step1 st event with
  | Except.error e => Except.error e
  | Except.ok r => forwardToHandler r.1 event r.2

/-- The loop `for h3_event in self._http.handle_event(event):
self._h3_event_received(h3_event)`, over the list of events the H3 layer
yielded; an escaping exception aborts the loop. -/
def h3Loop : ProtocolState → List H3Event →
    Except String (ProtocolState × List Output)
  | st, [] => Except.ok (st, [])
  | st, e :: rest =>
    match h3EventReceived st e with
    | Except.error err => Except.error err
    | Except.ok r =>
      match h3Loop r.1 rest with
      | Except.error err => Except.error err
      | Except.ok r2 => Except.ok (r2.1, r.2 ++ r2.2)

/-- Method `WebTransportProtocol.quic_event_received`.  `h3_events` is the
list yielded by `self._http.handle_event(event)` (HTTP/3 frame decoding is
an external collaborator); it is consumed only when `self._http` is not
`None`.  On `ProtocolNegotiated` a fresh H3 connection is installed; on
`StreamReset` with an active handler, `self._handler.stream_closed` runs
first. -/
def quicEventReceived (st : ProtocolState) (event : QuicEvent)
    (h3_events : List H3Event) : Except String (ProtocolState × List Output) :=
  let step1 : Except String ProtocolState :=
    match event with
    | QuicEvent.protocolNegotiated => Except.ok { st with httpUp := true }
    | QuicEvent.streamReset stream_id =>
      match st.handler with
      | some h =>
        match Handler.stream_closed h stream_id with
        | Except.ok h2 => Except.ok { st with handler := some h2 }
        | Except.error e => Except.error e
      | none => Except.ok st
    | QuicEvent.otherQuicEvent => Except.ok st
  match step1 with
  | Except.error e => Except.error e
  | Except.ok st1 =>
    if st1.httpUp then h3Loop st1 h3_events else Except.ok (st1, [])

/-- Delivery of a whole sequence of inbound chunks for one inbound
WebTransport stream `sid` to an `AudioEchoStream` handler, accumulating the
outputs (each chunk is a `(data, stream_ended)` pair carried by a
`WebTransportStreamDataReceived` event of the handler's session). -/
def runChunks : HttpState → AudioEchoStream → Nat → List (ByteStr × Bool) →
    HttpState × AudioEchoStream × List Output
  | http, st, _, [] => (http, st, [])
  | http, st, sid, c :: rest =>
    let r1 := AudioEchoStream.h3_event_received http st
        (H3Event.webTransportStreamDataReceived sid st.session_id c.1 c.2)
    let r2 := runChunks r1.1 r1.2.1 sid rest
    (r2.1, r2.2.1, r1.2.2 ++ r2.2.2)

/-- All chunks except possibly the last have `stream_ended = false`
(at the transport level no data can follow a FIN on the same stream). -/
def midsFalse : List (ByteStr × Bool) → Bool
  | c1 :: c2 :: rest => !c1.2 && midsFalse (c2 :: rest)
  | _ => true

/-- Whether the final chunk of the sequence carries `stream_ended = true`. -/
def endsEnded : List (ByteStr × Bool) → Bool
  | [] => false
  | [c] => c.2
  | _ :: c2 :: rest => endsEnded (c2 :: rest)

/-- A protocol state with no handler yet (fresh connection after
`ProtocolNegotiated`). -/
def noHandlerSt : ProtocolState :=
  { http := { nextStreamId := 2 }, httpUp := true, handler := none }

/-- A protocol state with an active `AudioEchoStream` handler whose mapping
already pairs inbound stream 3 with outbound stream 6 and inbound stream 8
with outbound stream 2. -/
def streamActiveSt : ProtocolState :=
  { http := { nextStreamId := 10 }, httpUp := true,
    handler := some (Handler.audioEchoStream
      { session_id := 0, echo_stream_id := [(3, 6), (8, 2)] }) }

/-- A protocol state with an active `AudioEchoStream` handler and an empty
mapping. -/
def emptyStreamSt : ProtocolState :=
  { http := { nextStreamId := 2 }, httpUp := true,
    handler := some (Handler.audioEchoStream
      { session_id := 0, echo_stream_id := [] }) }

/-- A protocol state with an active `AudioEchoDatagram` handler. -/
def datagramActiveSt : ProtocolState :=
  { http := { nextStreamId := 2 }, httpUp := true,
    handler := some (Handler.audioEchoDatagram { session_id := 0 }) }

/-! ### Association-list lemmas -/

lemma alookup_ainsert_self (m : List (Nat × Nat)) (k v : Nat) :
    alookup (ainsert m k v) k = some v := by
  induction m with
  | nil => simp [ainsert, alookup]
  | cons p rest ih =>
    obtain ⟨a, b⟩ := p
    by_cases hak : a = k
    · simp [ainsert, alookup, hak]
    · simp [ainsert, alookup, hak, ih]

lemma alookup_eq_none_of_not_mem (m : List (Nat × Nat)) (k : Nat)
    (h : k ∉ m.map Prod.fst) : alookup m k = none := by
  induction m with
  | nil => rfl
  | cons p rest ih =>
    obtain ⟨a, b⟩ := p
    simp only [List.map_cons, List.mem_cons] at h
    push_neg at h
    simp [alookup, Ne.symm h.1, ih h.2]

lemma aerase_of_alookup_none (m : List (Nat × Nat)) (k : Nat)
    (h : alookup m k = none) : aerase m k = m := by
  induction m with
  | nil => rfl
  | cons p rest ih =>
    obtain ⟨a, b⟩ := p
    by_cases hak : a = k
    · simp [alookup, hak] at h
    · simp only [alookup, if_neg hak] at h
      simp [aerase, hak, ih h]

lemma alookup_aerase_self_of_nodup (m : List (Nat × Nat)) (k : Nat)
    (hnd : (m.map Prod.fst).Nodup) : alookup (aerase m k) k = none := by
  induction m with
  | nil => rfl
  | cons p rest ih =>
    obtain ⟨a, b⟩ := p
    simp only [List.map_cons, List.nodup_cons] at hnd
    obtain ⟨hna, hnd2⟩ := hnd
    by_cases hak : a = k
    · subst hak
      simp only [aerase, if_pos rfl]
      exact alookup_eq_none_of_not_mem rest a hna
    · simp [aerase, hak, alookup, ih hnd2]

lemma aerase_ainsert_of_none (m : List (Nat × Nat)) (k v : Nat)
    (h : alookup m k = none) : aerase (ainsert m k v) k = m := by
  induction m with
  | nil => simp [ainsert, aerase]
  | cons p rest ih =>
    obtain ⟨a, b⟩ := p
    by_cases hak : a = k
    · simp [alookup, hak] at h
    · simp only [alookup, if_neg hak] at h
      simp [ainsert, aerase, hak, ih h]

/-! ### Handler and forwarding lemmas -/

lemma handler_headers_noop (http : HttpState) (h : Handler) (sid : Nat)
    (hs : List (ByteStr × ByteStr)) :
    Handler.h3_event_received http h (H3Event.headersReceived sid hs) = (http, h, []) := by
  cases h <;> rfl

lemma handler_data_noop (http : HttpState) (h : Handler) (sid : Nat)
    (d : ByteStr) (e : Bool) :
    Handler.h3_event_received http h (H3Event.dataReceived sid d e) = (http, h, []) := by
  cases h <;> rfl

lemma handler_session_closed_eq (h : Handler) : Handler.session_closed h = h := by
  cases h <;> rfl

lemma forward_headers_noop (st : ProtocolState) (sid : Nat)
    (hs : List (ByteStr × ByteStr)) (out1 : List Output) :
    forwardToHandler st (H3Event.headersReceived sid hs) out1 = Except.ok (st, out1) := by
  cases st with
  | mk http up hd =>
    cases hd with
    | none => rfl
    | some h => simp [forwardToHandler, handler_headers_noop]

lemma forward_data_noop (st : ProtocolState) (sid : Nat) (d : ByteStr) (e : Bool)
    (out1 : List Output) :
    forwardToHandler st (H3Event.dataReceived sid d e) out1 = Except.ok (st, out1) := by
  cases st with
  | mk http up hd =>
    cases hd with
    | none => rfl
    | some h => simp [forwardToHandler, handler_data_noop]

lemma h3_recv_headers_connect (st : ProtocolState) (sid : Nat)
    (hs : List (ByteStr × ByteStr))
    (hm : dictGet hs (bytes ":method") = some (bytes "CONNECT"))
    (hp : dictGet hs (bytes ":protocol") = some (bytes "webtransport")) :
    h3EventReceived st (H3Event.headersReceived sid hs) = handshakeWebtransport st sid hs := by
  have hstep : h3Step1 st (H3Event.headersReceived sid hs) = handshakeWebtransport st sid hs := by
    simp [h3Step1, hm, hp]
  unfold h3EventReceived
  rw [hstep]
  cases hr : handshakeWebtransport st sid hs with
  | error e => rfl
  | ok r => exact forward_headers_noop r.1 sid hs r.2

lemma h3_recv_headers_not_connect (st : ProtocolState) (sid : Nat)
    (hs : List (ByteStr × ByteStr))
    (hnc : ¬(dictGet hs (bytes ":method") = some (bytes "CONNECT") ∧
             dictGet hs (bytes ":protocol") = some (bytes "webtransport"))) :
    h3EventReceived st (H3Event.headersReceived sid hs) =
      Except.ok (st, [send_response sid 400 true]) := by
  have hstep : h3Step1 st (H3Event.headersReceived sid hs) =
      Except.ok (st, [send_response sid 400 true]) := by
    simp only [h3Step1, if_neg hnc]
  unfold h3EventReceived
  rw [hstep]
  exact forward_headers_noop st sid hs _

/-! ### Handshake evaluation lemmas -/

lemma handshake_missing (st : ProtocolState) (sid : Nat) (hs : List (ByteStr × ByteStr))
    (h : dictGet hs (bytes ":authority") = none ∨ dictGet hs (bytes ":path") = none) :
    handshakeWebtransport st sid hs = Except.ok (st, [send_response sid 400 true]) := by
  simp [handshakeWebtransport, h]

lemma handshake_audio_stream (st : ProtocolState) (sid : Nat)
    (hs : List (ByteStr × ByteStr))
    (ha : dictGet hs (bytes ":authority") ≠ none)
    (hpath : dictGet hs (bytes ":path") = some (bytes "/audio/echo/stream")) :
    handshakeWebtransport st sid hs =
      if st.handler.isSome then Except.error "AssertionError: self._handler is None"
      else Except.ok ({ st with handler := some (Handler.audioEchoStream
             { session_id := sid, echo_stream_id := [] }) },
           [send_response sid 200 false]) := by
  simp [handshakeWebtransport, hpath, ha]

lemma handshake_video_stream (st : ProtocolState) (sid : Nat)
    (hs : List (ByteStr × ByteStr))
    (ha : dictGet hs (bytes ":authority") ≠ none)
    (hpath : dictGet hs (bytes ":path") = some (bytes "/video/echo/stream")) :
    handshakeWebtransport st sid hs =
      if st.handler.isSome then Except.error "AssertionError: self._handler is None"
      else Except.ok ({ st with handler := some (Handler.videoEchoStream
             { session_id := sid, echo_stream_id := [] }) },
           [send_response sid 200 false]) := by
  have h1 : bytes "/video/echo/stream" ≠ bytes "/audio/echo/stream" := by decide
  simp [handshakeWebtransport, hpath, ha, h1]

lemma handshake_audio_datagram (st : ProtocolState) (sid : Nat)
    (hs : List (ByteStr × ByteStr))
    (ha : dictGet hs (bytes ":authority") ≠ none)
    (hpath : dictGet hs (bytes ":path") = some (bytes "/audio/echo/datagram")) :
    handshakeWebtransport st sid hs =
      if st.handler.isSome then Except.error "AssertionError: self._handler is None"
      else Except.ok ({ st with handler := some (Handler.audioEchoDatagram
             { session_id := sid }) },
           [send_response sid 200 false]) := by
  have h1 : bytes "/audio/echo/datagram" ≠ bytes "/audio/echo/stream" := by decide
  have h2 : bytes "/audio/echo/datagram" ≠ bytes "/video/echo/stream" := by decide
  simp [handshakeWebtransport, hpath, ha, h1, h2]

lemma handshake_video_datagram (st : ProtocolState) (sid : Nat)
    (hs : List (ByteStr × ByteStr))
    (ha : dictGet hs (bytes ":authority") ≠ none)
    (hpath : dictGet hs (bytes ":path") = some (bytes "/video/echo/datagram")) :
    handshakeWebtransport st sid hs =
      if st.handler.isSome then Except.error "AssertionError: self._handler is None"
      else Except.ok ({ st with handler := some (Handler.videoEchoDatagram
             { session_id := sid }) },
           [send_response sid 200 false]) := by
  have h1 : bytes "/video/echo/datagram" ≠ bytes "/audio/echo/stream" := by decide
  have h2 : bytes "/video/echo/datagram" ≠ bytes "/video/echo/stream" := by decide
  have h3 : bytes "/video/echo/datagram" ≠ bytes "/audio/echo/datagram" := by decide
  simp [handshakeWebtransport, hpath, ha, h1, h2, h3]

lemma handshake_404 (st : ProtocolState) (sid : Nat) (hs : List (ByteStr × ByteStr))
    (p : ByteStr)
    (ha : dictGet hs (bytes ":authority") ≠ none)
    (hpath : dictGet hs (bytes ":path") = some p)
    (h1 : p ≠ bytes "/audio/echo/stream") (h2 : p ≠ bytes "/video/echo/stream")
    (h3 : p ≠ bytes "/audio/echo/datagram") (h4 : p ≠ bytes "/video/echo/datagram") :
    handshakeWebtransport st sid hs = Except.ok (st, [send_response sid 404 true]) := by
  simp [handshakeWebtransport, hpath, ha, h1, h2, h3, h4]

/-! ### Stream-echo chunk-run lemmas -/

lemma h3_event_mapped (http : HttpState) (st : AudioEchoStream) (sid o : Nat)
    (d : ByteStr) (e : Bool) (hmap : alookup st.echo_stream_id sid = some o) :
    AudioEchoStream.h3_event_received http st
        (H3Event.webTransportStreamDataReceived sid st.session_id d e) =
      (http, if e then AudioEchoStream.stream_closed st sid else st,
       [Output.send_stream_data o d e]) := by
  simp [AudioEchoStream.h3_event_received, hmap]

lemma h3_event_fresh (http : HttpState) (st : AudioEchoStream) (sid : Nat)
    (d : ByteStr) (e : Bool) (hfresh : alookup st.echo_stream_id sid = none) :
    AudioEchoStream.h3_event_received http st
        (H3Event.webTransportStreamDataReceived sid st.session_id d e) =
      ({ nextStreamId := http.nextStreamId + 4 },
       (if e then
          AudioEchoStream.stream_closed
            { st with echo_stream_id :=
                ainsert st.echo_stream_id sid http.nextStreamId } sid
        else
          { st with echo_stream_id :=
              ainsert st.echo_stream_id sid http.nextStreamId }),
       [Output.create_webtransport_stream st.session_id true,
        Output.send_stream_data http.nextStreamId d e]) := by
  simp [AudioEchoStream.h3_event_received, hfresh, alookup_ainsert_self]

lemma runChunks_cons (http : HttpState) (st : AudioEchoStream) (sid : Nat)
    (c : ByteStr × Bool) (rest : List (ByteStr × Bool)) :
    runChunks http st sid (c :: rest) =
      (let r1 := AudioEchoStream.h3_event_received http st
          (H3Event.webTransportStreamDataReceived sid st.session_id c.1 c.2)
       let r2 := runChunks r1.1 r1.2.1 sid rest
       (r2.1, r2.2.1, r1.2.2 ++ r2.2.2)) := rfl

lemma runChunks_mapped (chunks : List (ByteStr × Bool)) :
    ∀ (http : HttpState) (st : AudioEchoStream) (sid o : Nat),
      alookup st.echo_stream_id sid = some o → midsFalse chunks = true →
      runChunks http st sid chunks =
        (http,
         { st with echo_stream_id :=
             if endsEnded chunks then aerase st.echo_stream_id sid
             else st.echo_stream_id },
         chunks.map (fun c => Output.send_stream_data o c.1 c.2)) := by
  induction chunks with
  | nil =>
    intro http st sid o hmap hmid
    simp [runChunks, endsEnded]
  | cons c rest ih =>
    intro http st sid o hmap hmid
    obtain ⟨d, e⟩ := c
    cases rest with
    | nil =>
      cases e <;>
        simp [runChunks, h3_event_mapped http st sid o d _ hmap, endsEnded,
          AudioEchoStream.stream_closed]
    | cons c2 rest2 =>
      simp only [midsFalse, Bool.and_eq_true, Bool.not_eq_true'] at hmid
      obtain ⟨he, hmid2⟩ := hmid
      subst he
      have hstep : AudioEchoStream.h3_event_received http st
          (H3Event.webTransportStreamDataReceived sid st.session_id d false) =
          (http, st, [Output.send_stream_data o d false]) := by
        simp [h3_event_mapped http st sid o d false hmap]
      rw [runChunks_cons, hstep]
      dsimp only
      rw [ih http st sid o hmap hmid2]
      simp [endsEnded]

/-! ### Claim theorems -/

/-- C1 (amended): for every connection state with an active handler, a
`DataReceived` event that ends its stream and whose payload is at least
3 bytes long and begins with the bytes `0x68 0x43` makes the router invoke
the handler's `session_closed` notification (observable as the logged close
line), and the handler stays installed with its state unchanged, so HTTP/3
events — including this very event — continue to be forwarded to it
afterward. -/
theorem spec_C1 (st : ProtocolState) (h : Handler) (hh : st.handler = some h)
    (sid : Nat) (data : ByteStr) (hlen : 3 ≤ data.length)
    (h0 : data.get? 0 = some 0x68) (h1 : data.get? 1 = some 0x43) :
    h3EventReceived st (H3Event.dataReceived sid data true) =
      Except.ok (st, [Output.printed "session closed!!!!!!"]) := by
  have hst : ({ st with handler := some h } : ProtocolState) = st := by
    cases st with
    | mk a b c =>
      simp only at hh
      rw [hh]
  have h0' : data[0]? = some 0x68 := by simpa using h0
  have h1' : data[1]? = some 0x43 := by simpa using h1
  have hstep : h3Step1 st (H3Event.dataReceived sid data true) =
      Except.ok (st, [Output.printed "session closed!!!!!!"]) := by
    simp [h3Step1, hlen, h0', h1', hh, handler_session_closed_eq, hst]
  unfold h3EventReceived
  rw [hstep]
  exact forward_data_noop st sid data true _

/-- C1 witness: at a concrete state with an active stream-echo handler, the
3-byte payload `68 43 00` with end-of-stream produces exactly the
session-closed log action and leaves the state unchanged. -/
theorem spec_C1_witness :
    h3EventReceived emptyStreamSt (H3Event.dataReceived 0 [0x68, 0x43, 0] true) =
      Except.ok (emptyStreamSt, [Output.printed "session closed!!!!!!"]) :=
  spec_C1 emptyStreamSt
    (Handler.audioEchoStream { session_id := 0, echo_stream_id := [] }) rfl
    0 [0x68, 0x43, 0] (by decide) rfl rfl

/-- C1 counterexample to the claim as stated: (a) a `DataReceived` event
whose payload is exactly the 2-byte marker `68 43` (length 2) and which ends
its stream does NOT trigger the close handling (the code requires
`len(event.data) >= 3`): no `session_closed` call, no log line; (b) after a
close IS detected (3-byte payload), subsequent HTTP/3 events are still
forwarded to the handler — here a following WebTransport stream chunk is
echoed as usual, so forwarding does not stop. -/
theorem spec_C1_counterexample :
    (h3EventReceived emptyStreamSt (H3Event.dataReceived 0 [0x68, 0x43] true) =
       Except.ok (emptyStreamSt, [])) ∧
    (h3Loop emptyStreamSt
        [H3Event.dataReceived 0 [0x68, 0x43, 0] true,
         H3Event.webTransportStreamDataReceived 4 0 [9] false] =
      Except.ok ({ http := { nextStreamId := 6 }, httpUp := true,
                   handler := some (Handler.audioEchoStream
                     { session_id := 0, echo_stream_id := [(4, 2)] }) },
                 [Output.printed "session closed!!!!!!",
                  Output.create_webtransport_stream 0 true,
                  Output.send_stream_data 2 [9] false])) :=
  ⟨rfl, rfl⟩

/-- C2: with no handler installed, non-handshake events are dropped
silently — EXCEPT a stream-ending `DataReceived` whose payload is at least
3 bytes and starts with the close marker, on which the code calls
`self._handler.session_closed()` with `self._handler = None` and crashes
with `AttributeError`.  The first conjunct evaluates the code at the failing
input; the others show the tolerated cases the claim describes. -/
theorem spec_C2 :
    (h3EventReceived noHandlerSt (H3Event.dataReceived 0 [0x68, 0x43, 0] true) =
       Except.error "AttributeError: NoneType object has no attribute session_closed") ∧
    (h3EventReceived noHandlerSt (H3Event.datagramReceived 0 [1, 2]) =
       Except.ok (noHandlerSt, [])) ∧
    (h3EventReceived noHandlerSt (H3Event.webTransportStreamDataReceived 4 0 [1] true) =
       Except.ok (noHandlerSt, [])) ∧
    (h3EventReceived noHandlerSt (H3Event.dataReceived 0 [0x68, 0x43] true) =
       Except.ok (noHandlerSt, [])) :=
  ⟨rfl, rfl, rfl, rfl⟩

/-- C3: a QUIC `StreamReset` with an active handler invokes the handler's
`stream_closed` cleanup.  For a stream-echo handler this succeeds — it
removes exactly the mapping of the reset stream (first conjunct), and is a
harmless no-op for a stream id never seen (second conjunct), leaving the
session id and other streams untouched.  For a datagram-echo handler,
however, `stream_closed` dereferences the never-initialized
`_echo_stream_id` attribute and raises `AttributeError` (third conjunct),
contradicting the claim that the cleanup completes without error for either
variant. -/
theorem spec_C3 :
    (quicEventReceived streamActiveSt (QuicEvent.streamReset 3) [] =
       Except.ok ({ http := { nextStreamId := 10 }, httpUp := true,
                    handler := some (Handler.audioEchoStream
                      { session_id := 0, echo_stream_id := [(8, 2)] }) }, [])) ∧
    (quicEventReceived streamActiveSt (QuicEvent.streamReset 5) [] =
       Except.ok (streamActiveSt, [])) ∧
    (quicEventReceived datagramActiveSt (QuicEvent.streamReset 3) [] =
       Except.error "AttributeError: AudioEchoDatagram object has no attribute _echo_stream_id") :=
  ⟨rfl, rfl, rfl⟩

/-- C4: if a WebTransport CONNECT with present `:authority` and a routable
`:path` arrives while a handler already exists on the connection, the
`assert(self._handler is None)` fails: the handshake raises
`AssertionError` (fatal for that connection) before any handler assignment,
so the existing handler is never silently replaced. -/
theorem spec_C4 (st : ProtocolState) (sid : Nat) (hs : List (ByteStr × ByteStr))
    (p : ByteStr)
    (hh : st.handler.isSome = true)
    (hm : dictGet hs (bytes ":method") = some (bytes "CONNECT"))
    (hp : dictGet hs (bytes ":protocol") = some (bytes "webtransport"))
    (ha : dictGet hs (bytes ":authority") ≠ none)
    (hpath : dictGet hs (bytes ":path") = some p)
    (hroute : p = bytes "/audio/echo/stream" ∨ p = bytes "/video/echo/stream" ∨
              p = bytes "/audio/echo/datagram" ∨ p = bytes "/video/echo/datagram") :
    h3EventReceived st (H3Event.headersReceived sid hs) =
      Except.error "AssertionError: self._handler is None" := by
  rw [h3_recv_headers_connect st sid hs hm hp]
  rcases hroute with h1 | h1 | h1 | h1 <;> subst h1
  · rw [handshake_audio_stream st sid hs ha hpath, if_pos hh]
  · rw [handshake_video_stream st sid hs ha hpath, if_pos hh]
  · rw [handshake_audio_datagram st sid hs ha hpath, if_pos hh]
  · rw [handshake_video_datagram st sid hs ha hpath, if_pos hh]

/-- C4 witness: a second CONNECT for `/audio/echo/stream` on a connection
whose handler is already active fails with the assertion error. -/
theorem spec_C4_witness :
    h3EventReceived streamActiveSt (H3Event.headersReceived 8
        [(bytes ":method", bytes "CONNECT"), (bytes ":protocol", bytes "webtransport"),
         (bytes ":authority", bytes "h"), (bytes ":path", bytes "/audio/echo/stream")]) =
      Except.error "AssertionError: self._handler is None" :=
  spec_C4 streamActiveSt 8
    [(bytes ":method", bytes "CONNECT"), (bytes ":protocol", bytes "webtransport"),
     (bytes ":authority", bytes "h"), (bytes ":path", bytes "/audio/echo/stream")]
    (bytes "/audio/echo/stream") rfl (by decide) (by decide) (by decide) (by decide)
    (Or.inl rfl)

/-- C5: delivering a nonempty chunk sequence for a previously-unseen inbound
stream id to a stream-echo handler, where only the last chunk may end the
stream, creates exactly one outbound unidirectional stream (on the first
chunk, drawn from the connection allocator), forwards every chunk verbatim
and in order to that same outbound stream with the inbound end-of-stream
flag passed through unchanged, and removes the inbound-to-outbound mapping
exactly when the final chunk ended the stream (leaving other mappings and
the session id untouched). -/
theorem spec_C5 (http : HttpState) (st : AudioEchoStream) (sid : Nat)
    (chunks : List (ByteStr × Bool))
    (hne : chunks ≠ [])
    (hfresh : alookup st.echo_stream_id sid = none)
    (hmid : midsFalse chunks = true) :
    runChunks http st sid chunks =
      ({ nextStreamId := http.nextStreamId + 4 },
       { st with echo_stream_id :=
           if endsEnded chunks then st.echo_stream_id
           else ainsert st.echo_stream_id sid http.nextStreamId },
       Output.create_webtransport_stream st.session_id true ::
         chunks.map (fun c => Output.send_stream_data http.nextStreamId c.1 c.2)) ∧
    alookup (runChunks http st sid chunks).2.1.echo_stream_id sid =
      (if endsEnded chunks then none else some http.nextStreamId) := by
  have hmain : runChunks http st sid chunks =
      ({ nextStreamId := http.nextStreamId + 4 },
       { st with echo_stream_id :=
           if endsEnded chunks then st.echo_stream_id
           else ainsert st.echo_stream_id sid http.nextStreamId },
       Output.create_webtransport_stream st.session_id true ::
         chunks.map (fun c => Output.send_stream_data http.nextStreamId c.1 c.2)) := by
    cases chunks with
    | nil => exact absurd rfl hne
    | cons c rest =>
      obtain ⟨d, e⟩ := c
      cases rest with
      | nil =>
        cases e <;>
          simp [runChunks, h3_event_fresh http st sid d _ hfresh, endsEnded,
            AudioEchoStream.stream_closed, aerase_ainsert_of_none _ _ _ hfresh]
      | cons c2 rest2 =>
        simp only [midsFalse, Bool.and_eq_true, Bool.not_eq_true'] at hmid
        obtain ⟨he, hmid2⟩ := hmid
        subst he
        have hstep : AudioEchoStream.h3_event_received http st
            (H3Event.webTransportStreamDataReceived sid st.session_id d false) =
            ({ nextStreamId := http.nextStreamId + 4 },
             { st with echo_stream_id :=
                 ainsert st.echo_stream_id sid http.nextStreamId },
             [Output.create_webtransport_stream st.session_id true,
              Output.send_stream_data http.nextStreamId d false]) := by
          simp [h3_event_fresh http st sid d false hfresh]
        have hmapIns : alookup (ainsert st.echo_stream_id sid http.nextStreamId) sid =
            some http.nextStreamId := alookup_ainsert_self _ _ _
        rw [runChunks_cons, hstep]
        dsimp only
        rw [runChunks_mapped (c2 :: rest2) { nextStreamId := http.nextStreamId + 4 }
          { st with echo_stream_id := ainsert st.echo_stream_id sid http.nextStreamId }
          sid http.nextStreamId hmapIns hmid2]
        simp [endsEnded, aerase_ainsert_of_none _ _ _ hfresh]
  refine ⟨hmain, ?_⟩
  rw [hmain]
  by_cases hee : endsEnded chunks = true
  · simp [hee, hfresh]
  · simp only [Bool.not_eq_true] at hee
    simp [hee, alookup_ainsert_self]

/-- C5 witness: two chunks `[1,2,3]` (not ended) then `[4]` (ended) on the
fresh inbound stream 4 yield one outbound stream creation, the two verbatim
forwards with the matching end flags, and a mapping removed at the end. -/
theorem spec_C5_witness :
    runChunks { nextStreamId := 2 } { session_id := 7, echo_stream_id := [] } 4
        [([1, 2, 3], false), ([4], true)] =
      ({ nextStreamId := 6 }, { session_id := 7, echo_stream_id := [] },
       [Output.create_webtransport_stream 7 true,
        Output.send_stream_data 2 [1, 2, 3] false,
        Output.send_stream_data 2 [4] true]) := by
  have h := (spec_C5 { nextStreamId := 2 } { session_id := 7, echo_stream_id := [] } 4
    [([1, 2, 3], false), ([4], true)] (by simp) rfl rfl).1
  simpa using h

/-- C6: each `DatagramReceived` event delivered to a datagram-echo handler
(either variant) produces exactly one `send_datagram` with the identical
payload on the handler's session id, immediately followed by a `transmit`
of the connection, and the handler state is unchanged (no state is retained
between datagrams). -/
theorem spec_C6 (st : AudioEchoDatagram) (st2 : VideoEchoDatagram)
    (flow_id : Nat) (data : ByteStr) :
    AudioEchoDatagram.h3_event_received st (H3Event.datagramReceived flow_id data) =
      (st, [Output.send_datagram st.session_id data, Output.transmit]) ∧
    VideoEchoDatagram.h3_event_received st2 (H3Event.datagramReceived flow_id data) =
      (st2, [Output.send_datagram st2.session_id data, Output.transmit]) :=
  ⟨rfl, rfl⟩

/-- C7 (amended): for a WebTransport CONNECT whose `:authority` is present
and that arrives while no handler exists yet, a `:path` exactly equal to one
of the four routing entries gets a 200 response with the stream kept open
and the matching handler variant installed (keyed by the CONNECT stream id
as session id); any other `:path` gets a 404 with the stream ended and no
handler installed; and every `_send_response` header list carries the fixed
`sec-webtransport-http3-draft: draft02` marker. -/
theorem spec_C7 (st : ProtocolState) (sid : Nat) (hs : List (ByteStr × ByteStr))
    (p : ByteStr)
    (hnone : st.handler = none)
    (hm : dictGet hs (bytes ":method") = some (bytes "CONNECT"))
    (hp : dictGet hs (bytes ":protocol") = some (bytes "webtransport"))
    (ha : dictGet hs (bytes ":authority") ≠ none)
    (hpath : dictGet hs (bytes ":path") = some p) :
    (p = bytes "/audio/echo/stream" →
       h3EventReceived st (H3Event.headersReceived sid hs) =
         Except.ok ({ st with handler := some (Handler.audioEchoStream
               { session_id := sid, echo_stream_id := [] }) },
             [send_response sid 200 false])) ∧
    (p = bytes "/video/echo/stream" →
       h3EventReceived st (H3Event.headersReceived sid hs) =
         Except.ok ({ st with handler := some (Handler.videoEchoStream
               { session_id := sid, echo_stream_id := [] }) },
             [send_response sid 200 false])) ∧
    (p = bytes "/audio/echo/datagram" →
       h3EventReceived st (H3Event.headersReceived sid hs) =
         Except.ok ({ st with handler := some (Handler.audioEchoDatagram
               { session_id := sid }) },
             [send_response sid 200 false])) ∧
    (p = bytes "/video/echo/datagram" →
       h3EventReceived st (H3Event.headersReceived sid hs) =
         Except.ok ({ st with handler := some (Handler.videoEchoDatagram
               { session_id := sid }) },
             [send_response sid 200 false])) ∧
    (p ≠ bytes "/audio/echo/stream" → p ≠ bytes "/video/echo/stream" →
     p ≠ bytes "/audio/echo/datagram" → p ≠ bytes "/video/echo/datagram" →
       h3EventReceived st (H3Event.headersReceived sid hs) =
         Except.ok (st, [send_response sid 404 true])) ∧
    (∀ status_code : Nat,
       (bytes "sec-webtransport-http3-draft", bytes "draft02") ∈
         response_headers status_code) := by
  have hoff : st.handler.isSome = false := by rw [hnone]; rfl
  refine ⟨?_, ?_, ?_, ?_, ?_, ?_⟩
  · intro hpth
    subst hpth
    rw [h3_recv_headers_connect st sid hs hm hp,
      handshake_audio_stream st sid hs ha hpath, hoff]
    rfl
  · intro hpth
    subst hpth
    rw [h3_recv_headers_connect st sid hs hm hp,
      handshake_video_stream st sid hs ha hpath, hoff]
    rfl
  · intro hpth
    subst hpth
    rw [h3_recv_headers_connect st sid hs hm hp,
      handshake_audio_datagram st sid hs ha hpath, hoff]
    rfl
  · intro hpth
    subst hpth
    rw [h3_recv_headers_connect st sid hs hm hp,
      handshake_video_datagram st sid hs ha hpath, hoff]
    rfl
  · intro h1 h2 h3 h4
    rw [h3_recv_headers_connect st sid hs hm hp,
      handshake_404 st sid hs p ha hpath h1 h2 h3 h4]
  · intro status_code
    simp [response_headers]

/-- C7 witness: a first CONNECT with authority present for
`/audio/echo/stream` gets 200 with the stream kept open and the audio
stream-echo handler installed. -/
theorem spec_C7_witness :
    h3EventReceived noHandlerSt (H3Event.headersReceived 0
        [(bytes ":method", bytes "CONNECT"), (bytes ":protocol", bytes "webtransport"),
         (bytes ":authority", bytes "h"), (bytes ":path", bytes "/audio/echo/stream")]) =
      Except.ok ({ noHandlerSt with handler := some (Handler.audioEchoStream
            { session_id := 0, echo_stream_id := [] }) },
          [send_response 0 200 false]) :=
  (spec_C7 noHandlerSt 0
    [(bytes ":method", bytes "CONNECT"), (bytes ":protocol", bytes "webtransport"),
     (bytes ":authority", bytes "h"), (bytes ":path", bytes "/audio/echo/stream")]
    (bytes "/audio/echo/stream") rfl (by decide) (by decide) (by decide)
    (by decide)).1 rfl

/-- C7 counterexample to the claim as stated: (a) a CONNECT whose `:path`
matches `/audio/echo/stream` but whose `:authority` is missing is answered
with 400 (stream ended) and no handler, not with 200; (b) a CONNECT for a
routable path while a handler already exists does not get a 200 response
either — it fails with the assertion error.  The claim is therefore only
true under a present `:authority` and no pre-existing handler. -/
theorem spec_C7_counterexample :
    (h3EventReceived noHandlerSt (H3Event.headersReceived 0
        [(bytes ":method", bytes "CONNECT"), (bytes ":protocol", bytes "webtransport"),
         (bytes ":path", bytes "/audio/echo/stream")]) =
      Except.ok (noHandlerSt, [send_response 0 400 true])) ∧
    (h3EventReceived streamActiveSt (H3Event.headersReceived 12
        [(bytes ":method", bytes "CONNECT"), (bytes ":protocol", bytes "webtransport"),
         (bytes ":authority", bytes "h"), (bytes ":path", bytes "/video/echo/datagram")]) =
      Except.error "AssertionError: self._handler is None") :=
  ⟨rfl, rfl⟩

/-- C8: a `HeadersReceived` request that is not a WebTransport extended
CONNECT (wrong or missing `:method`/`:protocol`) is answered with exactly a
400 response ending the stream, and a WebTransport CONNECT missing
`:authority` or `:path` likewise; in both cases the protocol state — in
particular the handler slot — is unchanged, so no session is created. -/
theorem spec_C8 (st : ProtocolState) (sid : Nat) (hs : List (ByteStr × ByteStr)) :
    (¬(dictGet hs (bytes ":method") = some (bytes "CONNECT") ∧
       dictGet hs (bytes ":protocol") = some (bytes "webtransport")) →
      h3EventReceived st (H3Event.headersReceived sid hs) =
        Except.ok (st, [send_response sid 400 true])) ∧
    (dictGet hs (bytes ":method") = some (bytes "CONNECT") →
     dictGet hs (bytes ":protocol") = some (bytes "webtransport") →
     (dictGet hs (bytes ":authority") = none ∨ dictGet hs (bytes ":path") = none) →
      h3EventReceived st (H3Event.headersReceived sid hs) =
        Except.ok (st, [send_response sid 400 true])) := by
  constructor
  · intro hnc
    exact h3_recv_headers_not_connect st sid hs hnc
  · intro hm hp hmiss
    rw [h3_recv_headers_connect st sid hs hm hp, handshake_missing st sid hs hmiss]

/-- C8 witness: a request with no headers at all (hence no CONNECT method)
on a fresh connection gets exactly the 400 response with the stream ended
and leaves the state unchanged. -/
theorem spec_C8_witness :
    h3EventReceived noHandlerSt (H3Event.headersReceived 0 []) =
      Except.ok (noHandlerSt, [send_response 0 400 true]) :=
  (spec_C8 noHandlerSt 0 []).1 (by decide)

/-- C9: `stream_closed` on a stream-echo handler is idempotent — under the
dict invariant that mapping keys are unique, removing the same stream id
twice equals removing it once, and removing an id with no mapping (for
example one already removed) is a no-op; the operation is total (the
`KeyError` is caught), so no error is raised. -/
theorem spec_C9 (st : AudioEchoStream) (stream_id : Nat)
    (hnd : (st.echo_stream_id.map Prod.fst).Nodup) :
    AudioEchoStream.stream_closed (AudioEchoStream.stream_closed st stream_id) stream_id =
      AudioEchoStream.stream_closed st stream_id ∧
    (alookup st.echo_stream_id stream_id = none →
      AudioEchoStream.stream_closed st stream_id = st) := by
  constructor
  · have h1 : alookup (aerase st.echo_stream_id stream_id) stream_id = none :=
      alookup_aerase_self_of_nodup _ _ hnd
    simp [AudioEchoStream.stream_closed, aerase_of_alookup_none _ _ h1]
  · intro h
    simp [AudioEchoStream.stream_closed, aerase_of_alookup_none _ _ h]

/-- C9 witness: removing stream id 3 twice from the mapping `[(3, 6)]`
equals removing it once. -/
theorem spec_C9_witness :
    AudioEchoStream.stream_closed (AudioEchoStream.stream_closed
        { session_id := 0, echo_stream_id := [(3, 6)] } 3) 3 =
      AudioEchoStream.stream_closed { session_id := 0, echo_stream_id := [(3, 6)] } 3 :=
  (spec_C9 { session_id := 0, echo_stream_id := [(3, 6)] } 3 (by decide)).1

/-- C10: cross-mode traffic is silently dropped at the handler boundary —
a `DatagramReceived` event delivered to a stream-echo handler produces no
output and leaves the mapping state (and allocator) unchanged, and a
`WebTransportStreamDataReceived` event delivered to a datagram-echo handler
produces no output and changes no state; neither raises an error. -/
theorem spec_C10 (http : HttpState) (sst : AudioEchoStream) (vst : VideoEchoStream)
    (dst : AudioEchoDatagram) (wst : VideoEchoDatagram)
    (flow_id stream_id session_id : Nat) (data : ByteStr) (ended : Bool) :
    AudioEchoStream.h3_event_received http sst (H3Event.datagramReceived flow_id data) =
      (http, sst, []) ∧
    VideoEchoStream.h3_event_received http vst (H3Event.datagramReceived flow_id data) =
      (http, vst, []) ∧
    AudioEchoDatagram.h3_event_received dst
        (H3Event.webTransportStreamDataReceived stream_id session_id data ended) =
      (dst, []) ∧
    VideoEchoDatagram.h3_event_received wst
        (H3Event.webTransportStreamDataReceived stream_id session_id data ended) =
      (wst, []) :=
  ⟨rfl, rfl, rfl, rfl⟩
